import Mathlib

/-!
Verification of the SportsAlgo NHL prediction engine (`model.py`, `config.py`).

The Python floats are embedded as exact rationals (`ℚ`); dates are embedded as
day numbers (`ℤ`), so calendar-day differences are integer subtraction.
Python dicts keyed by team abbreviation are embedded as association lists
(`List (String × _)`) looked up with `List.lookup`, or — for read-only inputs —
as functions `String → Option _`.
-/

namespace SportsAlgo

/-! ### Configuration (`config.py`) -/

def WEIGHTS_goal_diff_per_gp : ℚ := 0.25
def WEIGHTS_point_pct : ℚ := 0.20
def WEIGHTS_recent_form : ℚ := 0.20
def WEIGHTS_home_road_split : ℚ := 0.10
def WEIGHTS_special_teams : ℚ := 0.10
def WEIGHTS_shot_diff_per_gp : ℚ := 0.10
def WEIGHTS_streak_momentum : ℚ := 0.05

def HOME_ICE_BONUS : ℚ := 0.035
def BACK_TO_BACK_PENALTY : ℚ := -0.030
def THREE_IN_FOUR_PENALTY : ℚ := -0.045
def EXTENDED_REST_BONUS : ℚ := 0.010

/-- Star rating thresholds on `|adjusted_diff|`, scanned top-down. -/
def STAR_THRESHOLDS : List (ℚ × ℕ) :=
  [(0.25, 5), (0.17, 4), (0.10, 3), (0.05, 2), (0.00, 1)]

def SKIP_THRESHOLD : ℚ := 0.005

def EARLY_SEASON_GP : ℚ := 10

/-! ### Python `min`/`max` over a list

`min(xs)` / `max(xs)` on a Python list: defined on non-empty lists (Python
raises `ValueError` on an empty one, embedded as `none`). -/

def listMin {α : Type*} [LinearOrder α] : List α → Option α
  | [] => none
  | x :: xs => some (xs.foldl min x)

def listMax {α : Type*} [LinearOrder α] : List α → Option α
  | [] => none
  | x :: xs => some (xs.foldl max x)

theorem foldl_min_mem {α : Type*} [LinearOrder α] (xs : List α) (x : α) : xs.foldl min x ∈ x :: xs := by
  induction xs generalizing x with
  | nil => simp
  | cons y ys ih =>
    have h := ih (min x y)
    rcases List.mem_cons.mp h with h1 | h1
    · rcases min_choice x y with hm | hm <;> rw [List.foldl_cons, h1, hm] <;> simp
    · simp [List.foldl_cons, List.mem_cons.mpr (Or.inr (List.mem_cons.mpr (Or.inr h1)))]

theorem foldl_min_le {α : Type*} [LinearOrder α] (xs : List α) : ∀ (x y : α), y ∈ x :: xs → xs.foldl min x ≤ y := by
  induction xs with
  | nil => intro x y hy; simp at hy; simp [hy]
  | cons z zs ih =>
    intro x y hy
    rw [List.foldl_cons]
    rcases List.mem_cons.mp hy with h1 | h1
    · subst h1
      exact le_trans (ih (min y z) (min y z) (List.mem_cons_self _ _)) (min_le_left _ _)
    · rcases List.mem_cons.mp h1 with h2 | h2
      · subst h2
        exact le_trans (ih (min x y) (min x y) (List.mem_cons_self _ _)) (min_le_right _ _)
      · exact ih (min x z) y (List.mem_cons.mpr (Or.inr h2))

theorem foldl_max_mem {α : Type*} [LinearOrder α] (xs : List α) (x : α) : xs.foldl max x ∈ x :: xs := by
  induction xs generalizing x with
  | nil => simp
  | cons y ys ih =>
    have h := ih (max x y)
    rcases List.mem_cons.mp h with h1 | h1
    · rcases max_choice x y with hm | hm <;> rw [List.foldl_cons, h1, hm] <;> simp
    · simp [List.foldl_cons, List.mem_cons.mpr (Or.inr (List.mem_cons.mpr (Or.inr h1)))]

theorem le_foldl_max {α : Type*} [LinearOrder α] (xs : List α) : ∀ (x y : α), y ∈ x :: xs → y ≤ xs.foldl max x := by
  induction xs with
  | nil => intro x y hy; simp at hy; simp [hy]
  | cons z zs ih =>
    intro x y hy
    rw [List.foldl_cons]
    rcases List.mem_cons.mp hy with h1 | h1
    · subst h1
      exact le_trans (le_max_left _ _) (ih (max y z) (max y z) (List.mem_cons_self _ _))
    · rcases List.mem_cons.mp h1 with h2 | h2
      · subst h2
        exact le_trans (le_max_right _ _) (ih (max x y) (max x y) (List.mem_cons_self _ _))
      · exact ih (max x z) y (List.mem_cons.mpr (Or.inr h2))

theorem listMin_eq_some_iff {α : Type*} [LinearOrder α] (l : List α) (m : α) :
    listMin l = some m ↔ m ∈ l ∧ ∀ y ∈ l, m ≤ y := by
  constructor
  · intro h
    match l, h with
    | x :: xs, h =>
      simp only [listMin, Option.some.injEq] at h
      subst h
      exact ⟨foldl_min_mem xs x, fun y hy => foldl_min_le xs x y hy⟩
  · rintro ⟨hm, hle⟩
    match l with
    | [] => simp at hm
    | x :: xs =>
      simp only [listMin, Option.some.injEq]
      have h1 : xs.foldl min x ≤ m := foldl_min_le xs x m hm
      have h2 : m ≤ xs.foldl min x := hle _ (foldl_min_mem xs x)
      exact le_antisymm h1 h2

theorem listMax_eq_some_iff {α : Type*} [LinearOrder α] (l : List α) (m : α) :
    listMax l = some m ↔ m ∈ l ∧ ∀ y ∈ l, y ≤ m := by
  constructor
  · intro h
    match l, h with
    | x :: xs, h =>
      simp only [listMax, Option.some.injEq] at h
      subst h
      exact ⟨foldl_max_mem xs x, fun y hy => le_foldl_max xs x y hy⟩
  · rintro ⟨hm, hle⟩
    match l with
    | [] => simp at hm
    | x :: xs =>
      simp only [listMax, Option.some.injEq]
      have h1 : m ≤ xs.foldl max x := le_foldl_max xs x m hm
      have h2 : xs.foldl max x ≤ m := hle _ (foldl_max_mem xs x)
      exact le_antisymm h2 h1

theorem listMin_perm {α : Type*} [LinearOrder α] {l l' : List α} (h : l.Perm l') : listMin l = listMin l' := by
  cases hl : listMin l with
  | none =>
    cases l with
    | nil => cases l' with
      | nil => rfl
      | cons y ys => exact absurd (List.Perm.nil_eq h) (by simp)
    | cons x xs => simp [listMin] at hl
  | some m =>
    rw [listMin_eq_some_iff] at hl
    symm
    rw [listMin_eq_some_iff]
    exact ⟨h.mem_iff.mp hl.1, fun y hy => hl.2 y (h.mem_iff.mpr hy)⟩

theorem listMax_perm {α : Type*} [LinearOrder α] {l l' : List α} (h : l.Perm l') : listMax l = listMax l' := by
  cases hl : listMax l with
  | none =>
    cases l with
    | nil => cases l' with
      | nil => rfl
      | cons y ys => exact absurd (List.Perm.nil_eq h) (by simp)
    | cons x xs => simp [listMax] at hl
  | some m =>
    rw [listMax_eq_some_iff] at hl
    symm
    rw [listMax_eq_some_iff]
    exact ⟨h.mem_iff.mp hl.1, fun y hy => hl.2 y (h.mem_iff.mpr hy)⟩

/-! ### `normalize` (`model.py` lines 23–28)

```python
def normalize(value, all_values):
    lo, hi = min(all_values), max(all_values)
    if hi == lo:
        return 0.5
    return (value - lo) / (hi - lo)
```
Python raises on an empty `all_values`; that failure is the `none` branch. -/

def normalize (value : ℚ) (all_values : List ℚ) : Option ℚ :=
  match listMin all_values, listMax all_values with
  | some lo, some hi =>
      if hi = lo then some (1/2) else some ((value - lo) / (hi - lo))
  | _, _ => none

theorem normalize_perm (value : ℚ) {l l' : List ℚ} (h : l.Perm l') :
    normalize value l = normalize value l' := by
  unfold normalize
  rw [listMin_perm h, listMax_perm h]

/-! ### Input records

A standings entry (`team` dict). A numeric field that is missing, `None`, or
non-numeric — all of which `_safe` maps to the default — is embedded as `none`.
The abbreviation `team["teamAbbrev"]["default"]` is embedded as a plain
`String` field. -/

structure TeamStanding where
  teamAbbrev : String
  gamesPlayed : Option ℚ
  goalFor : Option ℚ
  goalAgainst : Option ℚ
  pointPctg : Option ℚ
  l10Wins : Option ℚ
  l10Losses : Option ℚ
  l10OtLosses : Option ℚ
  homeWins : Option ℚ
  homeLosses : Option ℚ
  homeOtLosses : Option ℚ
  roadWins : Option ℚ
  roadLosses : Option ℚ
  roadOtLosses : Option ℚ
  streakCode : String
  streakCount : Option ℚ
deriving DecidableEq

/-- A stats-API row (`stats` dict). -/
structure TeamStats where
  powerPlayPct : Option ℚ
  penaltyKillPct : Option ℚ
  shotsForPerGame : Option ℚ
  shotsAgainstPerGame : Option ℚ
deriving DecidableEq

/-- `_safe(val, default)`: `float(val)` or the default when that fails. -/
def safe (val : Option ℚ) (default : ℚ) : ℚ := val.getD default

/-- The raw (unnormalized) factor values for one team (`_extract_factors`). -/
structure Factors where
  goal_diff_per_gp : ℚ
  point_pct : ℚ
  recent_form : ℚ
  home_pct : ℚ
  road_pct : ℚ
  special_teams : ℚ
  shot_diff_per_gp : ℚ
  streak_momentum : ℚ
  gp : ℚ
deriving DecidableEq

/-! ### `_extract_factors` (`model.py` lines 41–104) -/

def extract_factors (team : TeamStanding) (stats : Option TeamStats) : Factors :=
  let gp := max (safe team.gamesPlayed 1) 1
  let gf := safe team.goalFor 0
  let ga := safe team.goalAgainst 0
  let goal_diff_per_gp := (gf - ga) / gp
  let point_pct := safe team.pointPctg 0
  let l10w := safe team.l10Wins 0
  let l10l := safe team.l10Losses 0
  let l10o := safe team.l10OtLosses 0
  let l10_gp := l10w + l10l + l10o
  let recent_form := if l10_gp ≠ 0 then (l10w * 2 + l10o) / (l10_gp * 2) else 1/2
  let hw := safe team.homeWins 0
  let hl := safe team.homeLosses 0
  let ho := safe team.homeOtLosses 0
  let rw := safe team.roadWins 0
  let rl := safe team.roadLosses 0
  let ro := safe team.roadOtLosses 0
  let home_gp := hw + hl + ho
  let road_gp := rw + rl + ro
  let home_pct := if home_gp ≠ 0 then (hw * 2 + ho) / (home_gp * 2) else 1/2
  let road_pct := if road_gp ≠ 0 then (rw * 2 + ro) / (road_gp * 2) else 1/2
  let special_teams :=
    match stats with
    | some s => (safe s.powerPlayPct (1/2) + safe s.penaltyKillPct (1/2)) / 2
    | none => 1/2
  let shot_diff_per_gp :=
    match stats with
    | some s => safe s.shotsForPerGame 30 - safe s.shotsAgainstPerGame 30
    | none => 0
  let streak_count := safe team.streakCount 0
  let streak :=
    if team.streakCode = "W" then streak_count
    else if team.streakCode = "L" then -streak_count
    else streak_count * (1/2)
  { goal_diff_per_gp := goal_diff_per_gp
    point_pct := point_pct
    recent_form := recent_form
    home_pct := home_pct
    road_pct := road_pct
    special_teams := special_teams
    shot_diff_per_gp := shot_diff_per_gp
    streak_momentum := streak
    gp := gp }

/-! ### `compute_team_ratings` (`model.py` lines 109–161) -/

/-- One team's normalized factors, composite strength, and games played. -/
structure Rating where
  goal_diff_per_gp : ℚ
  point_pct : ℚ
  recent_form : ℚ
  special_teams : ℚ
  shot_diff_per_gp : ℚ
  streak_momentum : ℚ
  home_pct : ℚ
  road_pct : ℚ
  composite : ℚ
  gp : ℚ
deriving DecidableEq

/-- Normalize one team's raw factors against the per-factor league populations
and build its `Rating`.  Every call site passes non-empty populations
(`compute_team_ratings` bails out first when `raw` is empty), so the `getD 0`
fallback for `normalize`'s empty-population failure is unreachable. -/
def ratingOf (r : Factors)
    (gdP ppP rfP stP sdP smP hpP rpP : List ℚ) : Rating :=
  let n_gd := (normalize r.goal_diff_per_gp gdP).getD 0
  let n_pp := (normalize r.point_pct ppP).getD 0
  let n_rf := (normalize r.recent_form rfP).getD 0
  let n_st := (normalize r.special_teams stP).getD 0
  let n_sd := (normalize r.shot_diff_per_gp sdP).getD 0
  let n_sm := (normalize r.streak_momentum smP).getD 0
  let n_hp := (normalize r.home_pct hpP).getD 0
  let n_rp := (normalize r.road_pct rpP).getD 0
  { goal_diff_per_gp := n_gd
    point_pct := n_pp
    recent_form := n_rf
    special_teams := n_st
    shot_diff_per_gp := n_sd
    streak_momentum := n_sm
    home_pct := n_hp
    road_pct := n_rp
    composite :=
      WEIGHTS_goal_diff_per_gp * n_gd
      + WEIGHTS_point_pct * n_pp
      + WEIGHTS_recent_form * n_rf
      + WEIGHTS_special_teams * n_st
      + WEIGHTS_shot_diff_per_gp * n_sd
      + WEIGHTS_streak_momentum * n_sm
    gp := r.gp }

/-- The `raw` dict: `{abbrev: factors}` in standings order.  An association
list coincides with the Python dict whenever abbreviations are pairwise
distinct (the hypothesis under which ratings are compared). -/
def rawFactors (standings : List TeamStanding)
    (team_stats : String → Option TeamStats) : List (String × Factors) :=
  standings.map (fun t => (t.teamAbbrev, extract_factors t (team_stats t.teamAbbrev)))

def compute_team_ratings (standings : List TeamStanding)
    (team_stats : String → Option TeamStats) : List (String × Rating) :=
  let raw := rawFactors standings team_stats
  if raw.isEmpty then []
  else
    raw.map (fun p =>
      (p.1, ratingOf p.2
        (raw.map (fun q => q.2.goal_diff_per_gp))
        (raw.map (fun q => q.2.point_pct))
        (raw.map (fun q => q.2.recent_form))
        (raw.map (fun q => q.2.special_teams))
        (raw.map (fun q => q.2.shot_diff_per_gp))
        (raw.map (fun q => q.2.streak_momentum))
        (raw.map (fun q => q.2.home_pct))
        (raw.map (fun q => q.2.road_pct))))

/-! ### `detect_rest_situation` (`model.py` lines 166–202)

Dates are day numbers (`ℤ`); `(game_date - last_game).days` is subtraction.
The schedule cache plus lazy `fetch_team_schedule` is embedded as the
already-fetched date list for the team (sorted by `game_dates_from_schedule`).
-/

structure RestSituation where
  back_to_back : Bool
  three_in_four : Bool
  rest_days : ℤ
deriving DecidableEq

def detect_rest_situation (dates : List ℤ) (game_date : ℤ) : RestSituation :=
  if dates.isEmpty then ⟨false, false, 1⟩
  else
    let past := dates.filter (fun d => d < game_date)
    if past.isEmpty then ⟨false, false, 1⟩
    else
      let last_game := past.getLastD 0
      let rest_days := game_date - last_game
      let window_start := game_date - 3
      let games_in_window :=
        (dates.filter (fun d => window_start ≤ d ∧ d < game_date)).length
      { back_to_back := rest_days = 1
        three_in_four := games_in_window + 1 ≥ 3
        rest_days := rest_days }

/-! ### `predict_game` (`model.py` lines 207–292) -/

/-- Python's `round(q, 4)`: round half to even at four decimal places
(stated on the exact decimal value; binary floating-point representation is
outside the scope of this rational embedding). -/
def round4 (q : ℚ) : ℚ :=
  let scaled := q * 10000
  let n : ℤ := ⌊scaled⌋
  let frac := scaled - n
  (if frac < 1/2 then (n : ℚ)
   else if 1/2 < frac then (n : ℚ) + 1
   else if n % 2 = 0 then (n : ℚ) else (n : ℚ) + 1) / 10000

/-- The `for threshold, s in STAR_THRESHOLDS` loop with `break`: the grade of
the first threshold that `abs_diff` meets or exceeds, default 1. -/
def scanStars (abs_diff : ℚ) : List (ℚ × ℕ) → ℕ
  | [] => 1
  | (threshold, s) :: rest =>
      if threshold ≤ abs_diff then s else scanStars abs_diff rest

/-- Grade before the early-season cap (`model.py` lines 262–273): 0 below the
skip threshold, otherwise the threshold-table scan. -/
def assignStars (diff : ℚ) : ℕ :=
  if |diff| < SKIP_THRESHOLD then 0 else scanStars |diff| STAR_THRESHOLDS

/-- Grade after the early-season cap (`model.py` lines 275–278):
`min_gp` is `min(home_r["gp"], away_r["gp"])`. -/
def finalStars (min_gp : ℚ) (diff : ℚ) : ℕ :=
  if min_gp < EARLY_SEASON_GP ∧ 2 < assignStars diff then 2 else assignStars diff

/-- Venue-adjusted composite differential plus the home-ice bonus
(`model.py` lines 221–236). -/
def venue_diff (home_r away_r : Rating) : ℚ :=
  (home_r.composite + WEIGHTS_home_road_split * home_r.home_pct)
    - (away_r.composite + WEIGHTS_home_road_split * away_r.road_pct)
    + HOME_ICE_BONUS

/-- The six situational rest adjustments to `diff`, in source order
(`model.py` lines 241–260). -/
def rest_adjust (diff : ℚ) (home_rest away_rest : RestSituation) : ℚ :=
  let d1 := if home_rest.back_to_back then diff + BACK_TO_BACK_PENALTY else diff
  let d2 := if away_rest.back_to_back then d1 - BACK_TO_BACK_PENALTY else d1
  let d3 := if home_rest.three_in_four then d2 + THREE_IN_FOUR_PENALTY else d2
  let d4 := if away_rest.three_in_four then d3 - THREE_IN_FOUR_PENALTY else d3
  let d5 := if home_rest.rest_days ≥ 3 then d4 + EXTENDED_REST_BONUS else d4
  let d6 := if away_rest.rest_days ≥ 3 then d5 - EXTENDED_REST_BONUS else d5
  d6

/-- The `adjustments` labels appended before the early-season cap, in source
order: "home ice" first, then the rest labels. -/
def adj_labels (home_abbrev away_abbrev : String)
    (home_rest away_rest : RestSituation) : List String :=
  ["home ice"]
    ++ (if home_rest.back_to_back then [home_abbrev ++ " B2B"] else [])
    ++ (if away_rest.back_to_back then [away_abbrev ++ " B2B"] else [])
    ++ (if home_rest.three_in_four then [home_abbrev ++ " 3-in-4"] else [])
    ++ (if away_rest.three_in_four then [away_abbrev ++ " 3-in-4"] else [])
    ++ (if home_rest.rest_days ≥ 3 then [home_abbrev ++ " rested"] else [])
    ++ (if away_rest.rest_days ≥ 3 then [away_abbrev ++ " rested"] else [])

/-- The full `adjustments` list, including the "early-season cap" label when
the cap fires (`min_gp` below threshold and uncapped grade above 2). -/
def pg_adjustments (home_abbrev away_abbrev : String) (home_r away_r : Rating)
    (home_rest away_rest : RestSituation) : List String :=
  adj_labels home_abbrev away_abbrev home_rest away_rest
    ++ (if min home_r.gp away_r.gp < EARLY_SEASON_GP
          ∧ 2 < assignStars (rest_adjust (venue_diff home_r away_r) home_rest away_rest)
        then ["early-season cap"] else [])

structure Prediction where
  game : String
  home : String
  away : String
  pick : String
  stars : ℕ
  diff : ℚ
  key_factors : String
deriving DecidableEq

/-- The body of `predict_game` once both rating records were found and both
rest situations computed (`model.py` lines 221–292). -/
def predict_game_core (home_abbrev away_abbrev : String) (home_r away_r : Rating)
    (home_rest away_rest : RestSituation) : Prediction :=
  let diff := rest_adjust (venue_diff home_r away_r) home_rest away_rest
  let pick :=
    if |diff| < SKIP_THRESHOLD then "SKIP"
    else if 0 < diff then home_abbrev else away_abbrev
  let adjustments := pg_adjustments home_abbrev away_abbrev home_r away_r home_rest away_rest
  { game := away_abbrev ++ " @ " ++ home_abbrev
    home := home_abbrev
    away := away_abbrev
    pick := pick
    stars := finalStars (min home_r.gp away_r.gp) diff
    diff := round4 diff
    key_factors :=
      if adjustments.isEmpty then "even matchup"
      else String.intercalate ", " (adjustments.take 4) }

/-- `predict_game`: `None` when either team lacks a rating record.
`schedules` is the net effect of the schedule cache plus lazy fetch: the
per-team sorted game-date list. -/
def predict_game (home_abbrev away_abbrev : String)
    (ratings : List (String × Rating)) (schedules : String → List ℤ)
    (game_date : ℤ) : Option Prediction :=
  match ratings.lookup home_abbrev, ratings.lookup away_abbrev with
  | some home_r, some away_r =>
      some (predict_game_core home_abbrev away_abbrev home_r away_r
        (detect_rest_situation (schedules home_abbrev) game_date)
        (detect_rest_situation (schedules away_abbrev) game_date))
  | _, _ => none

/-! ### `predict_today` (`model.py` lines 297–325) -/

/-- One slate entry: `homeTeam.abbrev` / `awayTeam.abbrev`, `""` when absent. -/
structure Game where
  home : String
  away : String
deriving DecidableEq

/-- The unsorted prediction list: one `predict_game` call per game with
resolvable identifiers, `None` results dropped. -/
def slate_predictions (ratings : List (String × Rating)) (games : List Game)
    (schedules : String → List ℤ) (game_date : ℤ) : List Prediction :=
  games.filterMap (fun g =>
    if g.home = "" ∨ g.away = "" then none
    else predict_game g.home g.away ratings schedules game_date)

/-- `predict_today`: Python's stable `list.sort(key=lambda p: -p["stars"])`
is embedded as the (stable) `mergeSort` with `p` before `q` when
`q.stars ≤ p.stars`. -/
def predict_today (standings : List TeamStanding)
    (team_stats : String → Option TeamStats) (games : List Game)
    (schedules : String → List ℤ) (game_date : ℤ) : List Prediction :=
  let ratings := compute_team_ratings standings team_stats
  if ratings.isEmpty then []
  else
    (slate_predictions ratings games schedules game_date).mergeSort
      (fun p q => q.stars ≤ p.stars)

/-! ### Helper lemmas about the grade functions -/

theorem scanStars_eval (x : ℚ) :
    scanStars x STAR_THRESHOLDS =
      if 0.25 ≤ x then 5
      else if 0.17 ≤ x then 4
      else if 0.10 ≤ x then 3
      else if 0.05 ≤ x then 2
      else if 0.00 ≤ x then 1
      else 1 := rfl

theorem scanStars_pos (x : ℚ) : 1 ≤ scanStars x STAR_THRESHOLDS := by
  rw [scanStars_eval]
  split_ifs <;> omega

set_option maxHeartbeats 1000000 in
theorem assignStars_mono {a b : ℚ} (h : |a| ≤ |b|) : assignStars a ≤ assignStars b := by
  have h0 : (0 : ℚ) ≤ |a| := abs_nonneg a
  have h0b : (0 : ℚ) ≤ |b| := abs_nonneg b
  unfold assignStars
  rw [scanStars_eval, scanStars_eval]
  simp only [SKIP_THRESHOLD]
  split_ifs <;> first | omega | linarith

theorem assignStars_eq_zero_iff (d : ℚ) : assignStars d = 0 ↔ |d| < SKIP_THRESHOLD := by
  unfold assignStars
  split_ifs with h
  · exact iff_of_true rfl h
  · have h1 := scanStars_pos |d|
    exact iff_of_false (by omega) h

theorem finalStars_mono (g : ℚ) {a b : ℚ} (h : |a| ≤ |b|) :
    finalStars g a ≤ finalStars g b := by
  have hm := assignStars_mono h
  by_cases hg : g < EARLY_SEASON_GP
  · simp only [finalStars, hg, true_and]
    split_ifs <;> omega
  · simp only [finalStars, hg, false_and, if_false]
    exact hm

theorem finalStars_eq_zero_iff (g d : ℚ) :
    finalStars g d = 0 ↔ |d| < SKIP_THRESHOLD := by
  rw [← assignStars_eq_zero_iff]
  unfold finalStars
  split_ifs with hc
  · obtain ⟨hg, hs⟩ := hc
    have hB : ¬(assignStars d = 0) := by omega
    exact iff_of_false not_false hB
  · exact Iff.rfl

theorem finalStars_le_two (g d : ℚ) (hg : g < EARLY_SEASON_GP) :
    finalStars g d ≤ 2 := by
  unfold finalStars
  split_ifs with hc
  · exact le_refl 2
  · have : ¬2 < assignStars d := fun h2 => hc ⟨hg, h2⟩
    omega

theorem finalStars_le_assignStars (g d : ℚ) : finalStars g d ≤ assignStars d := by
  unfold finalStars
  split_ifs with hc
  · omega
  · exact le_refl _

theorem finalStars_eq_of_le_two (g d : ℚ) (h : assignStars d ≤ 2) :
    finalStars g d = assignStars d := by
  unfold finalStars
  split_ifs with hc
  · omega
  · rfl

/-! ### Claim C4 — `normalize` stays in [0,1] and maps zero spread to 1/2 -/

/-- C4: for every non-empty population and every value in it, `normalize`
returns a result (never a failure), the result lies in `[0, 1]`, and when all
population values are identical it returns exactly `1/2` (for any input
value). -/
theorem C4_normalize_bounds :
    ∀ (l : List ℚ) (v : ℚ), v ∈ l →
      (∃ r, normalize v l = some r)
      ∧ (∀ r, normalize v l = some r → 0 ≤ r ∧ r ≤ 1)
      ∧ ((∀ x ∈ l, ∀ y ∈ l, x = y) → normalize v l = some (1/2)) := by
  intro l v hv
  obtain ⟨x, xs, rfl⟩ := List.exists_cons_of_ne_nil (List.ne_nil_of_mem hv)
  have hlo_le : xs.foldl min x ≤ v := foldl_min_le xs x v hv
  have hv_le : v ≤ xs.foldl max x := le_foldl_max xs x v hv
  have hnorm : normalize v (x :: xs) =
      if xs.foldl max x = xs.foldl min x then some (1/2)
      else some ((v - xs.foldl min x) / (xs.foldl max x - xs.foldl min x)) := rfl
  by_cases heq : xs.foldl max x = xs.foldl min x
  · rw [hnorm, if_pos heq]
    refine ⟨⟨1/2, rfl⟩, ?_, fun _ => rfl⟩
    intro r hr
    rw [Option.some.injEq] at hr
    subst hr
    norm_num
  · have hle : xs.foldl min x ≤ xs.foldl max x := le_trans hlo_le hv_le
    have hlt : xs.foldl min x < xs.foldl max x :=
      lt_of_le_of_ne hle (fun he => heq he.symm)
    rw [hnorm, if_neg heq]
    refine ⟨⟨_, rfl⟩, ?_, ?_⟩
    · intro r hr
      rw [Option.some.injEq] at hr
      subst hr
      constructor
      · exact div_nonneg (by linarith) (by linarith)
      · rw [div_le_one (by linarith)]
        linarith
    · intro hall
      exact absurd (hall _ (foldl_max_mem xs x) _ (foldl_min_mem xs x)) heq

/-- Witness for C4 at the concrete population `[1, 2, 3]` and value `2`. -/
theorem C4_normalize_bounds_witness :
    (2 : ℚ) ∈ [(1 : ℚ), 2, 3]
    ∧ ((∃ r, normalize 2 [1, 2, 3] = some r)
        ∧ (∀ r, normalize 2 [1, 2, 3] = some r → 0 ≤ r ∧ r ≤ 1)
        ∧ ((∀ x ∈ [(1 : ℚ), 2, 3], ∀ y ∈ [(1 : ℚ), 2, 3], x = y) →
            normalize 2 [1, 2, 3] = some (1/2))) :=
  ⟨by norm_num, C4_normalize_bounds [1, 2, 3] 2 (by norm_num)⟩

/-! ### Claim C3 — grade is monotone in |diff| and zero iff below skip -/

/-- C3: the grade assigned by `predict_game` is `finalStars` of the adjusted
differential (first conjunct, definitional); holding everything else fixed,
that grade is non-decreasing in `|diff|`; and it is `0` exactly when `|diff|`
is strictly below the skip threshold. -/
theorem C3_stars_monotone :
    (∀ (h a : String) (home_r away_r : Rating) (hrest arest : RestSituation),
        (predict_game_core h a home_r away_r hrest arest).stars
          = finalStars (min home_r.gp away_r.gp)
              (rest_adjust (venue_diff home_r away_r) hrest arest))
    ∧ (∀ (g d₁ d₂ : ℚ), |d₁| ≤ |d₂| → finalStars g d₁ ≤ finalStars g d₂)
    ∧ (∀ (g d : ℚ), finalStars g d = 0 ↔ |d| < SKIP_THRESHOLD) :=
  ⟨fun _ _ _ _ _ _ => rfl,
   fun g _ _ h => finalStars_mono g h,
   fun g d => finalStars_eq_zero_iff g d⟩

/-- Witness for C3 at `|0.06| ≤ |-0.2|`. -/
theorem C3_stars_monotone_witness :
    |(0.06 : ℚ)| ≤ |(-0.2 : ℚ)|
    ∧ finalStars 20 0.06 ≤ finalStars 20 (-0.2)
    ∧ (finalStars 20 0.001 = 0 ↔ |(0.001 : ℚ)| < SKIP_THRESHOLD) := by
  have habs : |(0.06 : ℚ)| ≤ |(-0.2 : ℚ)| := by
    rw [abs_of_nonneg (by norm_num : (0 : ℚ) ≤ 0.06),
      abs_of_nonpos (by norm_num : (-0.2 : ℚ) ≤ 0)]
    norm_num
  exact ⟨habs, C3_stars_monotone.2.1 20 0.06 (-0.2) habs,
    C3_stars_monotone.2.2 20 0.001⟩

/-! ### Claim C1 — early-season cap bounds the grade at 2 -/

/-- C1: whenever either team's games-played count is below
`EARLY_SEASON_GP`, the prediction's grade never exceeds 2, for any
differential; and the cap only ever lowers a grade — it never exceeds the
uncapped grade, and an uncapped grade of at most 2 is left unchanged. -/
theorem C1_early_season_cap :
    (∀ (h a : String) (home_r away_r : Rating) (hrest arest : RestSituation),
        home_r.gp < EARLY_SEASON_GP ∨ away_r.gp < EARLY_SEASON_GP →
        (predict_game_core h a home_r away_r hrest arest).stars ≤ 2)
    ∧ (∀ (g d : ℚ), finalStars g d ≤ assignStars d
        ∧ (assignStars d ≤ 2 → finalStars g d = assignStars d)) := by
  constructor
  · intro h a home_r away_r hrest arest hgp
    show finalStars (min home_r.gp away_r.gp) _ ≤ 2
    apply finalStars_le_two
    rcases hgp with hgp | hgp
    · exact lt_of_le_of_lt (min_le_left _ _) hgp
    · exact lt_of_le_of_lt (min_le_right _ _) hgp
  · intro g d
    exact ⟨finalStars_le_assignStars g d, finalStars_eq_of_le_two g d⟩

/-- A strong home team with only 3 games played. -/
def r_strong : Rating :=
  { goal_diff_per_gp := 1, point_pct := 1, recent_form := 1, special_teams := 1,
    shot_diff_per_gp := 1, streak_momentum := 1, home_pct := 1, road_pct := 1,
    composite := 10, gp := 3 }

/-- A weak, fully-seasoned away team. -/
def r_weak : Rating :=
  { goal_diff_per_gp := 0, point_pct := 0, recent_form := 0, special_teams := 0,
    shot_diff_per_gp := 0, streak_momentum := 0, home_pct := 0, road_pct := 0,
    composite := 0, gp := 20 }

/-- No rest flags at all. -/
def rest0 : RestSituation := ⟨false, false, 1⟩

/-- Witness for C1: a 3-games-played team with an enormous differential still
gets a grade of at most 2. -/
theorem C1_early_season_cap_witness :
    (r_strong.gp < EARLY_SEASON_GP ∨ r_weak.gp < EARLY_SEASON_GP)
    ∧ (predict_game_core "HHH" "AAA" r_strong r_weak rest0 rest0).stars ≤ 2 := by
  have hgp : r_strong.gp < EARLY_SEASON_GP := by norm_num [r_strong, EARLY_SEASON_GP]
  exact ⟨Or.inl hgp,
    C1_early_season_cap.1 "HHH" "AAA" r_strong r_weak rest0 rest0 (Or.inl hgp)⟩

/-! ### Claim C6 — back-to-back detection -/

theorem listMax_sorted_getLastD {α : Type*} [LinearOrder α] (l : List α) :
    l ≠ [] → l.Pairwise (· ≤ ·) → ∀ d0, listMax l = some (l.getLastD d0) := by
  induction l with
  | nil => intro h; exact absurd rfl h
  | cons x xs ih =>
    intro _ hs d0
    cases xs with
    | nil => rfl
    | cons y ys =>
      have hp := List.pairwise_cons.mp hs
      have hxy : x ≤ y := hp.1 y (List.mem_cons_self y ys)
      have ihy := ih (by simp) hp.2 x
      rw [List.getLastD_cons]
      show some (List.foldl max x (y :: ys)) = some ((y :: ys).getLastD x)
      rw [List.foldl_cons, max_eq_right hxy]
      exact ihy

/-- C6: `back_to_back` is true exactly when the most recent game date strictly
before the target date exists and is one calendar day before it; with no prior
game (in particular with no schedule data at all), `back_to_back` is false and
`rest_days` defaults to 1.  The schedule list is sorted, as
`game_dates_from_schedule` guarantees. -/
theorem C6_back_to_back :
    ∀ (dates : List ℤ) (game_date : ℤ), dates.Pairwise (· ≤ ·) →
      ((detect_rest_situation dates game_date).back_to_back = true
        ↔ listMax (dates.filter (fun d => d < game_date)) = some (game_date - 1))
      ∧ (listMax (dates.filter (fun d => d < game_date)) = none →
          (detect_rest_situation dates game_date).back_to_back = false
          ∧ (detect_rest_situation dates game_date).rest_days = 1) := by
  intro dates gd hs
  by_cases hde : dates = []
  · subst hde
    simp [detect_rest_situation, listMax]
  · by_cases hpe : dates.filter (fun d => d < gd) = []
    · rw [hpe]
      simp [detect_rest_situation, hde, hpe, listMax]
    · have hs' : (dates.filter (fun d => d < gd)).Pairwise (· ≤ ·) :=
        hs.filter _
      have hmax := listMax_sorted_getLastD _ hpe hs' (0 : ℤ)
      rw [hmax]
      have hd : detect_rest_situation dates gd =
          { back_to_back := gd - (dates.filter (fun d => d < gd)).getLastD 0 = 1
            three_in_four :=
              (dates.filter (fun d => gd - 3 ≤ d ∧ d < gd)).length + 1 ≥ 3
            rest_days := gd - (dates.filter (fun d => d < gd)).getLastD 0 } := by
        unfold detect_rest_situation
        rw [if_neg (by simpa using hde), if_neg (by simpa using hpe)]
      rw [hd]
      constructor
      · simp only [decide_eq_true_eq, Option.some.injEq]
        omega
      · intro hnone
        cases hnone

/-- Witness for C6 at the sorted schedule `[5, 9]` and target date `10`. -/
theorem C6_back_to_back_witness :
    ([(5 : ℤ), 9]).Pairwise (· ≤ ·)
    ∧ (((detect_rest_situation [5, 9] 10).back_to_back = true
        ↔ listMax (([(5 : ℤ), 9]).filter (fun d => d < 10)) = some (10 - 1))
      ∧ (listMax (([(5 : ℤ), 9]).filter (fun d => d < 10)) = none →
          (detect_rest_situation [5, 9] 10).back_to_back = false
          ∧ (detect_rest_situation [5, 9] 10).rest_days = 1)) :=
  ⟨by decide, C6_back_to_back [5, 9] 10 (by decide)⟩

/-! ### Claim C7 — `predict_game` returns `None` iff a rating is missing -/

/-- C7: `predict_game` signals missing data exactly when at least one of the
two team identifiers has no entry in the ratings collection; when both have
records it returns a prediction. -/
theorem C7_missing_ratings :
    ∀ (h a : String) (ratings : List (String × Rating))
      (schedules : String → List ℤ) (game_date : ℤ),
      predict_game h a ratings schedules game_date = none
        ↔ ratings.lookup h = none ∨ ratings.lookup a = none := by
  intro h a ratings schedules gd
  unfold predict_game
  cases hh : ratings.lookup h <;> cases ha : ratings.lookup a <;> simp

/-! ### String lemmas for the `", ".join(adjustments[:4])` reasoning string -/

theorem intercalate_go_concat (s c : String) :
    ∀ (as : List String) (acc : String),
      ∃ t, String.intercalate.go acc s (as ++ [c]) = t ++ c := by
  intro as
  induction as with
  | nil => intro acc; exact ⟨acc ++ s, rfl⟩
  | cons a as ih => intro acc; exact ih (acc ++ s ++ a)

theorem intercalate_go_acc (s : String) :
    ∀ (as : List String) (acc : String),
      ∃ t, String.intercalate.go acc s as = acc ++ t := by
  intro as
  induction as with
  | nil => intro acc; exact ⟨"", (String.append_empty acc).symm⟩
  | cons a as ih =>
    intro acc
    obtain ⟨t, ht⟩ := ih (acc ++ s ++ a)
    refine ⟨s ++ a ++ t, ?_⟩
    show String.intercalate.go (acc ++ s ++ a) s as = _
    rw [ht, String.append_assoc, String.append_assoc, String.append_assoc]

theorem intercalate_concat (l : List String) (c : String) (hl : l ≠ []) :
    ∃ t, String.intercalate ", " (l ++ [c]) = t ++ c := by
  match l with
  | a :: as => exact intercalate_go_concat ", " c as a

theorem intercalate_head (l : List String) (a : String) :
    ∃ t, String.intercalate ", " (a :: l) = a ++ t :=
  intercalate_go_acc ", " l a

/-- The `key_factors` field joins only the first four adjustment labels; the
"even matchup" fallback is dead code because "home ice" is always present. -/
theorem predict_game_core_key_factors (h a : String) (hr ar : Rating)
    (hrest arest : RestSituation) :
    (predict_game_core h a hr ar hrest arest).key_factors
      = String.intercalate ", " ((pg_adjustments h a hr ar hrest arest).take 4) := by
  have hne : (pg_adjustments h a hr ar hrest arest).isEmpty = false := by
    unfold pg_adjustments adj_labels
    simp
  simp only [predict_game_core, hne, Bool.false_eq_true, if_false]

/-! ### Claim C10 — only the first four adjustment labels survive -/

/-- C10: the adjustment-reason output joins exactly the first four adjustment
labels in order of application — labels applied fifth or later are silently
dropped — while "home ice" is always the first label and always opens the
output string. -/
theorem C10_key_factors_truncation :
    ∀ (h a : String) (hr ar : Rating) (hrest arest : RestSituation),
      (predict_game_core h a hr ar hrest arest).key_factors
        = String.intercalate ", " ((pg_adjustments h a hr ar hrest arest).take 4)
      ∧ (pg_adjustments h a hr ar hrest arest).head? = some "home ice"
      ∧ ∃ t, (predict_game_core h a hr ar hrest arest).key_factors
          = "home ice" ++ t := by
  intro h a hr ar hrest arest
  obtain ⟨rest, hsplit⟩ :
      ∃ rest, pg_adjustments h a hr ar hrest arest = "home ice" :: rest := ⟨_, rfl⟩
  refine ⟨predict_game_core_key_factors h a hr ar hrest arest, ?_, ?_⟩
  · rw [hsplit]; rfl
  · rw [predict_game_core_key_factors h a hr ar hrest arest, hsplit]
    have htake : ("home ice" :: rest).take 4 = "home ice" :: rest.take 3 := rfl
    rw [htake]
    exact intercalate_head _ "home ice"

/-! ### Claim C2 — the "early-season cap" label in `key_factors` -/

/-- How many rest labels one side contributes to `adjustments`. -/
def restLabelCount (r : RestSituation) : ℕ :=
  (if r.back_to_back then 1 else 0)
    + (if r.three_in_four then 1 else 0)
    + (if r.rest_days ≥ 3 then 1 else 0)

theorem adj_labels_length (h a : String) (hrest arest : RestSituation) :
    (adj_labels h a hrest arest).length
      = 1 + restLabelCount hrest + restLabelCount arest := by
  unfold adj_labels restLabelCount
  split_ifs <;> simp

/-- C2 (amended): when the early-season cap fires and at most two rest
adjustments were applied — so the cap label lands within the first four
labels — "early-season cap" occurs in the prediction's `key_factors`.
(The unamended claim fails when three or more rest adjustments precede the
cap label: see the counterexample.) -/
theorem C2_cap_label (h a : String) (hr ar : Rating) (hrest arest : RestSituation)
    (hgp : min hr.gp ar.gp < EARLY_SEASON_GP)
    (hstars : 2 < assignStars (rest_adjust (venue_diff hr ar) hrest arest))
    (hcount : restLabelCount hrest + restLabelCount arest ≤ 2) :
    List.IsInfix ("early-season cap".data)
      (predict_game_core h a hr ar hrest arest).key_factors.data := by
  have hcap : pg_adjustments h a hr ar hrest arest
      = adj_labels h a hrest arest ++ ["early-season cap"] := by
    unfold pg_adjustments
    rw [if_pos ⟨hgp, hstars⟩]
  have hlen : (adj_labels h a hrest arest ++ ["early-season cap"]).length ≤ 4 := by
    rw [List.length_append, adj_labels_length]
    simp
    omega
  have hne : adj_labels h a hrest arest ≠ [] := by
    unfold adj_labels
    simp
  have htake : (pg_adjustments h a hr ar hrest arest).take 4
      = adj_labels h a hrest arest ++ ["early-season cap"] := by
    rw [hcap]
    exact List.take_of_length_le hlen
  obtain ⟨t, ht⟩ := intercalate_concat _ "early-season cap" hne
  have hkf : (predict_game_core h a hr ar hrest arest).key_factors
      = t ++ "early-season cap" := by
    rw [predict_game_core_key_factors h a hr ar hrest arest, htake, ht]
  rw [hkf]
  exact ⟨t.data, [], by simp⟩

/-- Witness for C2 (amended): 3-GP strong home team, no rest adjustments. -/
theorem C2_cap_label_witness :
    (min r_strong.gp r_weak.gp < EARLY_SEASON_GP
      ∧ 2 < assignStars (rest_adjust (venue_diff r_strong r_weak) rest0 rest0)
      ∧ restLabelCount rest0 + restLabelCount rest0 ≤ 2)
    ∧ List.IsInfix ("early-season cap".data)
        (predict_game_core "HHH" "AAA" r_strong r_weak rest0 rest0).key_factors.data := by
  have hgp : min r_strong.gp r_weak.gp < EARLY_SEASON_GP := by
    norm_num [r_strong, r_weak, EARLY_SEASON_GP, min_def]
  have hdiff : rest_adjust (venue_diff r_strong r_weak) rest0 rest0 = 10.135 := by
    norm_num [rest_adjust, venue_diff, rest0, r_strong, r_weak,
      WEIGHTS_home_road_split, HOME_ICE_BONUS]
  have hstars : 2 < assignStars (rest_adjust (venue_diff r_strong r_weak) rest0 rest0) := by
    rw [hdiff]
    unfold assignStars
    rw [abs_of_nonneg (by norm_num : (0 : ℚ) ≤ 10.135)]
    rw [if_neg (by norm_num [SKIP_THRESHOLD]), scanStars_eval]
    rw [if_pos (by norm_num : (0.25 : ℚ) ≤ 10.135)]
    omega
  have hcount : restLabelCount rest0 + restLabelCount rest0 ≤ 2 := by
    norm_num [restLabelCount, rest0]
  exact ⟨⟨hgp, hstars, hcount⟩,
    C2_cap_label "HHH" "AAA" r_strong r_weak rest0 rest0 hgp hstars hcount⟩

/-- Ratings table for the C2 counterexample run. -/
def cexRatings : List (String × Rating) := [("HHH", r_strong), ("AAA", r_weak)]

/-- Both teams played on the two days before the target date `100`:
back-to-back and 3-in-4 for both sides. -/
def cexScheds : String → List ℤ := fun _ => [98, 99]

/-- The prediction the code produces on the C2 counterexample run. -/
def cexPrediction : Prediction :=
  { game := "AAA @ HHH", home := "HHH", away := "AAA", pick := "HHH",
    stars := 2, diff := 10.135,
    key_factors := "home ice, HHH B2B, AAA B2B, HHH 3-in-4" }

theorem cex_rest : detect_rest_situation [98, 99] 100 = ⟨true, true, 1⟩ := by decide

theorem cex_diff :
    rest_adjust (venue_diff r_strong r_weak) ⟨true, true, 1⟩ ⟨true, true, 1⟩
      = 10.135 := by
  norm_num [rest_adjust, venue_diff, r_strong, r_weak, WEIGHTS_home_road_split,
    HOME_ICE_BONUS, BACK_TO_BACK_PENALTY, THREE_IN_FOUR_PENALTY]

theorem cex_abs : |(10.135 : ℚ)| = 10.135 := abs_of_nonneg (by norm_num)

theorem cex_assign : assignStars (10.135 : ℚ) = 5 := by
  unfold assignStars
  rw [cex_abs, if_neg (by norm_num [SKIP_THRESHOLD]), scanStars_eval,
    if_pos (by norm_num : (0.25 : ℚ) ≤ 10.135)]

theorem cex_gp : min r_strong.gp r_weak.gp < EARLY_SEASON_GP := by
  norm_num [r_strong, r_weak, EARLY_SEASON_GP, min_def]

theorem cex_final : finalStars (min r_strong.gp r_weak.gp) 10.135 = 2 := by
  unfold finalStars
  rw [cex_assign, if_pos ⟨cex_gp, by omega⟩]

theorem cex_adjustments :
    pg_adjustments "HHH" "AAA" r_strong r_weak ⟨true, true, 1⟩ ⟨true, true, 1⟩
      = ["home ice", "HHH B2B", "AAA B2B", "HHH 3-in-4", "AAA 3-in-4",
         "early-season cap"] := by
  have hstars : 2 < assignStars
      (rest_adjust (venue_diff r_strong r_weak) ⟨true, true, 1⟩ ⟨true, true, 1⟩) := by
    rw [cex_diff, cex_assign]
    omega
  have hcond : min r_strong.gp r_weak.gp < EARLY_SEASON_GP
      ∧ 2 < assignStars
        (rest_adjust (venue_diff r_strong r_weak) ⟨true, true, 1⟩ ⟨true, true, 1⟩) :=
    ⟨cex_gp, hstars⟩
  unfold pg_adjustments adj_labels
  rw [if_pos hcond]
  decide

theorem cex_round : round4 (10.135 : ℚ) = 10.135 := by
  norm_num [round4]

theorem cex_core :
    predict_game_core "HHH" "AAA" r_strong r_weak ⟨true, true, 1⟩ ⟨true, true, 1⟩
      = cexPrediction := by
  simp only [predict_game_core]
  rw [cex_diff, cex_adjustments, cex_abs, cex_final, cex_round]
  rw [if_neg (show ¬(10.135 : ℚ) < SKIP_THRESHOLD by norm_num [SKIP_THRESHOLD]),
    if_pos (show (0 : ℚ) < 10.135 by norm_num)]
  rfl

/-- C2 counterexample: on this run the early-season cap fires (3 GP home team,
uncapped grade 5, stored grade 2), yet "early-season cap" does not occur
anywhere in the returned `key_factors`, because four adjustment labels
("home ice" and three rest labels) precede it and only the first four are
joined. -/
theorem C2_counterexample :
    (min r_strong.gp r_weak.gp < EARLY_SEASON_GP
      ∧ 2 < assignStars (rest_adjust (venue_diff r_strong r_weak)
            (detect_rest_situation (cexScheds "HHH") 100)
            (detect_rest_situation (cexScheds "AAA") 100))
      ∧ (predict_game "HHH" "AAA" cexRatings cexScheds 100).map Prediction.stars
          = some 2)
    ∧ predict_game "HHH" "AAA" cexRatings cexScheds 100 = some cexPrediction
    ∧ ¬ List.IsInfix ("early-season cap".data) cexPrediction.key_factors.data := by
  have hpg : predict_game "HHH" "AAA" cexRatings cexScheds 100 = some cexPrediction := by
    unfold predict_game
    have hlk1 : List.lookup "HHH" cexRatings = some r_strong := rfl
    have hlk2 : List.lookup "AAA" cexRatings = some r_weak := rfl
    rw [hlk1, hlk2]
    show some (predict_game_core "HHH" "AAA" r_strong r_weak
      (detect_rest_situation [98, 99] 100) (detect_rest_situation [98, 99] 100)) = _
    rw [cex_rest, cex_core]
  refine ⟨⟨cex_gp, ?_, ?_⟩, hpg, ?_⟩
  · show 2 < assignStars (rest_adjust (venue_diff r_strong r_weak)
      (detect_rest_situation [98, 99] 100) (detect_rest_situation [98, 99] 100))
    rw [cex_rest, cex_diff, cex_assign]
    omega
  · rw [hpg]
    rfl
  · decide

/-! ### Claim C9 — even matchup collapses to the home-ice bonus -/

/-- C9 (amended): when home and away carry the same rating record, that record
has equal normalized home and road rates, and neither side has any rest
adjustment, the adjusted differential is exactly the home-ice bonus, the pick
is the home team and the grade is the lowest non-zero tier.  (As stated the
claim fails: with identical inputs but different home/road splits the
venue-specific contribution does not cancel — see the counterexample.) -/
theorem C9_even_matchup :
    ∀ (h a : String) (r : Rating) (hrest arest : RestSituation),
      hrest.back_to_back = false → hrest.three_in_four = false →
      ¬hrest.rest_days ≥ 3 →
      arest.back_to_back = false → arest.three_in_four = false →
      ¬arest.rest_days ≥ 3 →
      r.home_pct = r.road_pct →
      (predict_game_core h a r r hrest arest).diff = HOME_ICE_BONUS
      ∧ (predict_game_core h a r r hrest arest).pick = h
      ∧ (predict_game_core h a r r hrest arest).stars = 1 := by
  intro h a r hrest arest hb1 h31 hr1 hb2 h32 hr2 hvr
  have hdiff : rest_adjust (venue_diff r r) hrest arest = HOME_ICE_BONUS := by
    unfold rest_adjust venue_diff
    rw [hb1, hb2, h31, h32]
    simp only [Bool.false_eq_true, if_false, if_neg hr1, if_neg hr2]
    rw [hvr]
    ring
  have habs : |HOME_ICE_BONUS| = HOME_ICE_BONUS :=
    abs_of_nonneg (by norm_num [HOME_ICE_BONUS])
  have hassign : assignStars HOME_ICE_BONUS = 1 := by
    unfold assignStars
    rw [habs, if_neg (by norm_num [HOME_ICE_BONUS, SKIP_THRESHOLD]), scanStars_eval]
    rw [if_neg (by norm_num [HOME_ICE_BONUS]), if_neg (by norm_num [HOME_ICE_BONUS]),
      if_neg (by norm_num [HOME_ICE_BONUS]), if_neg (by norm_num [HOME_ICE_BONUS]),
      if_pos (by norm_num [HOME_ICE_BONUS])]
  have hfinal : finalStars (min r.gp r.gp) HOME_ICE_BONUS = 1 := by
    unfold finalStars
    rw [hassign]
    have hnc : ¬(min r.gp r.gp < EARLY_SEASON_GP ∧ 2 < 1) := fun hc => by omega
    rw [if_neg hnc]
  have hround : round4 HOME_ICE_BONUS = HOME_ICE_BONUS := by
    norm_num [round4, HOME_ICE_BONUS]
  refine ⟨?_, ?_, ?_⟩
  · show round4 (rest_adjust (venue_diff r r) hrest arest) = HOME_ICE_BONUS
    rw [hdiff, hround]
  · show (if |rest_adjust (venue_diff r r) hrest arest| < SKIP_THRESHOLD then "SKIP"
      else if 0 < rest_adjust (venue_diff r r) hrest arest then h else a) = h
    rw [hdiff, habs, if_neg (by norm_num [HOME_ICE_BONUS, SKIP_THRESHOLD]),
      if_pos (by norm_num [HOME_ICE_BONUS])]
  · show finalStars (min r.gp r.gp) (rest_adjust (venue_diff r r) hrest arest) = 1
    rw [hdiff, hfinal]

/-- Witness for C9 (amended) at a rating with equal home and road rates. -/
theorem C9_even_matchup_witness :
    (rest0.back_to_back = false ∧ rest0.three_in_four = false
      ∧ ¬rest0.rest_days ≥ 3 ∧ r_weak.home_pct = r_weak.road_pct)
    ∧ (predict_game_core "HHH" "AAA" r_weak r_weak rest0 rest0).diff = HOME_ICE_BONUS
    ∧ (predict_game_core "HHH" "AAA" r_weak r_weak rest0 rest0).pick = "HHH"
    ∧ (predict_game_core "HHH" "AAA" r_weak r_weak rest0 rest0).stars = 1 := by
  have h3 : ¬rest0.rest_days ≥ 3 := by norm_num [rest0]
  have hc := C9_even_matchup "HHH" "AAA" r_weak rest0 rest0 rfl rfl h3 rfl rfl h3 rfl
  exact ⟨⟨rfl, rfl, h3, rfl⟩, hc.1, hc.2.1, hc.2.2⟩

/-! C9 counterexample: a league of three teams, where teams `sA` and `sB`
have identical factor inputs (they differ only in the abbreviation), each
with a perfect home record and a winless road record, plus a third team `sC`
that gives the home/road populations a non-zero spread. -/

def sA : TeamStanding :=
  { teamAbbrev := "AAA", gamesPlayed := some 20, goalFor := none,
    goalAgainst := none, pointPctg := none, l10Wins := none, l10Losses := none,
    l10OtLosses := none, homeWins := some 10, homeLosses := some 0,
    homeOtLosses := some 0, roadWins := some 0, roadLosses := some 10,
    roadOtLosses := some 0, streakCode := "", streakCount := none }

/-- Identical inputs to `sA` apart from the team identifier. -/
def sB : TeamStanding := { sA with teamAbbrev := "BBB" }

def sC : TeamStanding :=
  { teamAbbrev := "CCC", gamesPlayed := some 20, goalFor := none,
    goalAgainst := none, pointPctg := none, l10Wins := none, l10Losses := none,
    l10OtLosses := none, homeWins := some 0, homeLosses := some 10,
    homeOtLosses := some 0, roadWins := some 10, roadLosses := some 0,
    roadOtLosses := some 0, streakCode := "", streakCount := none }

/-- Raw factors of `sA` and `sB`. -/
def fAB : Factors :=
  { goal_diff_per_gp := 0, point_pct := 0, recent_form := 1/2, home_pct := 1,
    road_pct := 0, special_teams := 1/2, shot_diff_per_gp := 0,
    streak_momentum := 0, gp := 20 }

/-- Raw factors of `sC`. -/
def fC : Factors :=
  { goal_diff_per_gp := 0, point_pct := 0, recent_form := 1/2, home_pct := 0,
    road_pct := 1, special_teams := 1/2, shot_diff_per_gp := 0,
    streak_momentum := 0, gp := 20 }

/-- Rating of `sA` and `sB`: normalized home rate 1, road rate 0. -/
def rAB : Rating :=
  { goal_diff_per_gp := 1/2, point_pct := 1/2, recent_form := 1/2,
    special_teams := 1/2, shot_diff_per_gp := 1/2, streak_momentum := 1/2,
    home_pct := 1, road_pct := 0, composite := 9/20, gp := 20 }

/-- Rating of `sC`. -/
def rC : Rating :=
  { goal_diff_per_gp := 1/2, point_pct := 1/2, recent_form := 1/2,
    special_teams := 1/2, shot_diff_per_gp := 1/2, streak_momentum := 1/2,
    home_pct := 0, road_pct := 1, composite := 9/20, gp := 20 }

theorem c9_extract_A : extract_factors sA none = fAB := by
  norm_num [extract_factors, safe, sA, fAB, max_def]

theorem c9_extract_B : extract_factors sB none = fAB := by
  norm_num [extract_factors, safe, sB, sA, fAB, max_def]

theorem c9_extract_C : extract_factors sC none = fC := by
  norm_num [extract_factors, safe, sC, fC, max_def]

theorem c9_raw : rawFactors [sA, sB, sC] (fun _ => none)
    = [("AAA", fAB), ("BBB", fAB), ("CCC", fC)] := by
  simp only [rawFactors, List.map_cons, List.map_nil,
    c9_extract_A, c9_extract_B, c9_extract_C]
  rfl

theorem c9_n_00 : normalize 0 [0, 0, 0] = some (1/2) := by
  norm_num [normalize, listMin, listMax, List.foldl_cons, List.foldl_nil,
    min_def, max_def]

theorem c9_n_hh : normalize (1/2) [1/2, 1/2, 1/2] = some (1/2) := by
  norm_num [normalize, listMin, listMax, List.foldl_cons, List.foldl_nil,
    min_def, max_def]

theorem c9_n_hp1 : normalize 1 [1, 1, 0] = some 1 := by
  norm_num [normalize, listMin, listMax, List.foldl_cons, List.foldl_nil,
    min_def, max_def]

theorem c9_n_hp0 : normalize 0 [1, 1, 0] = some 0 := by
  norm_num [normalize, listMin, listMax, List.foldl_cons, List.foldl_nil,
    min_def, max_def]

theorem c9_n_rp0 : normalize 0 [0, 0, 1] = some 0 := by
  norm_num [normalize, listMin, listMax, List.foldl_cons, List.foldl_nil,
    min_def, max_def]

theorem c9_n_rp1 : normalize 1 [0, 0, 1] = some 1 := by
  norm_num [normalize, listMin, listMax, List.foldl_cons, List.foldl_nil,
    min_def, max_def]

theorem c9_ratings : compute_team_ratings [sA, sB, sC] (fun _ => none)
    = [("AAA", rAB), ("BBB", rAB), ("CCC", rC)] := by
  unfold compute_team_ratings
  rw [c9_raw]
  rw [if_neg (show ¬(([("AAA", fAB), ("BBB", fAB), ("CCC", fC)]).isEmpty = true)
    by simp)]
  simp only [List.map_cons, List.map_nil]
  norm_num [ratingOf, fAB, fC, rAB, rC, c9_n_00, c9_n_hh, c9_n_hp1, c9_n_hp0,
    c9_n_rp0, c9_n_rp1, WEIGHTS_goal_diff_per_gp, WEIGHTS_point_pct,
    WEIGHTS_recent_form, WEIGHTS_special_teams, WEIGHTS_shot_diff_per_gp,
    WEIGHTS_streak_momentum]

theorem c9_diff :
    rest_adjust (venue_diff rAB rAB) ⟨false, false, 1⟩ ⟨false, false, 1⟩
      = 0.135 := by
  norm_num [rest_adjust, venue_diff, rAB, WEIGHTS_home_road_split, HOME_ICE_BONUS]

theorem c9_abs : |(0.135 : ℚ)| = 0.135 := abs_of_nonneg (by norm_num)

theorem c9_assign : assignStars (0.135 : ℚ) = 3 := by
  unfold assignStars
  rw [c9_abs, if_neg (by norm_num [SKIP_THRESHOLD]), scanStars_eval,
    if_neg (by norm_num : ¬(0.25 : ℚ) ≤ 0.135),
    if_neg (by norm_num : ¬(0.17 : ℚ) ≤ 0.135),
    if_pos (by norm_num : (0.10 : ℚ) ≤ 0.135)]

theorem c9_nocap : ¬min rAB.gp rAB.gp < EARLY_SEASON_GP := by
  norm_num [rAB, EARLY_SEASON_GP, min_def]

theorem c9_final : finalStars (min rAB.gp rAB.gp) 0.135 = 3 := by
  unfold finalStars
  rw [c9_assign]
  exact if_neg (fun hc => c9_nocap hc.1)

theorem c9_adjustments :
    pg_adjustments "AAA" "BBB" rAB rAB ⟨false, false, 1⟩ ⟨false, false, 1⟩
      = ["home ice"] := by
  have hnc : ¬(min rAB.gp rAB.gp < EARLY_SEASON_GP
      ∧ 2 < assignStars
        (rest_adjust (venue_diff rAB rAB) ⟨false, false, 1⟩ ⟨false, false, 1⟩)) :=
    fun hc => c9_nocap hc.1
  unfold pg_adjustments adj_labels
  rw [if_neg hnc]
  decide

theorem c9_round : round4 (0.135 : ℚ) = 0.135 := by
  norm_num [round4]

/-- The prediction the code produces for `sA` hosting its identical twin
`sB`. -/
def c9Prediction : Prediction :=
  { game := "BBB @ AAA", home := "AAA", away := "BBB", pick := "AAA",
    stars := 3, diff := 0.135, key_factors := "home ice" }

theorem c9_core :
    predict_game_core "AAA" "BBB" rAB rAB ⟨false, false, 1⟩ ⟨false, false, 1⟩
      = c9Prediction := by
  simp only [predict_game_core]
  rw [c9_diff, c9_adjustments, c9_abs, c9_final, c9_round]
  rw [if_neg (show ¬(0.135 : ℚ) < SKIP_THRESHOLD by norm_num [SKIP_THRESHOLD]),
    if_pos (show (0 : ℚ) < 0.135 by norm_num)]
  rfl

/-- C9 fails as stated: the home and away teams (`sA` and its copy `sB`) have
identical factor inputs, no rest adjustments apply (empty schedules) and the
early-season cap does not apply (20 games played), yet the adjusted
differential `diff` is `0.135` — the home-ice bonus plus the full venue-split
contribution, since the normalized home rate (1) and road rate (0) differ —
the grade is 3, not the lowest non-zero tier. -/
theorem C9_counterexample :
    sB = { sA with teamAbbrev := "BBB" }
    ∧ detect_rest_situation ([] : List ℤ) 100 = ⟨false, false, 1⟩
    ∧ ¬min rAB.gp rAB.gp < EARLY_SEASON_GP
    ∧ predict_game "AAA" "BBB" (compute_team_ratings [sA, sB, sC] (fun _ => none))
        (fun _ => []) 100 = some c9Prediction
    ∧ c9Prediction.diff ≠ HOME_ICE_BONUS
    ∧ c9Prediction.stars ≠ 1 := by
  refine ⟨rfl, rfl, c9_nocap, ?_, ?_, ?_⟩
  · unfold predict_game
    rw [c9_ratings]
    have hlk1 : List.lookup "AAA" [("AAA", rAB), ("BBB", rAB), ("CCC", rC)]
        = some rAB := rfl
    have hlk2 : List.lookup "BBB" [("AAA", rAB), ("BBB", rAB), ("CCC", rC)]
        = some rAB := rfl
    rw [hlk1, hlk2]
    show some (predict_game_core "AAA" "BBB" rAB rAB
      (detect_rest_situation [] 100) (detect_rest_situation [] 100)) = _
    rw [show detect_rest_situation ([] : List ℤ) 100
      = (⟨false, false, 1⟩ : RestSituation) from rfl]
    rw [c9_core]
  · norm_num [c9Prediction, HOME_ICE_BONUS]
  · norm_num [c9Prediction]

/-! ### Claim C8 — ratings are invariant under permuting the standings -/

theorem lookup_perm_of_nodup {α β : Type*} [DecidableEq α] {l l' : List (α × β)}
    (hp : l.Perm l') :
    (l.map Prod.fst).Nodup → ∀ k, l.lookup k = l'.lookup k := by
  induction hp with
  | nil => intro _ k; rfl
  | cons x p ih =>
    intro hnd k
    obtain ⟨xa, xb⟩ := x
    simp only [List.map_cons, List.nodup_cons] at hnd
    rw [List.lookup_cons, List.lookup_cons]
    by_cases hk : k == xa
    · rw [hk]
    · have hk' : (k == xa) = false := by simpa using hk
      rw [hk']
      exact ih hnd.2 k
  | swap x y t =>
    intro hnd k
    obtain ⟨xa, xb⟩ := x
    obtain ⟨ya, yb⟩ := y
    simp only [List.map_cons, List.nodup_cons, List.mem_cons] at hnd
    have hyx : ya ≠ xa := fun he => hnd.1 (Or.inl he)
    rw [List.lookup_cons, List.lookup_cons, List.lookup_cons, List.lookup_cons]
    by_cases h1 : k == ya <;> by_cases h2 : k == xa
    · exact absurd (((eq_of_beq h1).symm.trans (eq_of_beq h2)).symm) hyx.symm
    · have h2' : (k == xa) = false := by simpa using h2
      rw [h1, h2']
    · have h1' : (k == ya) = false := by simpa using h1
      rw [h1', h2]
    · have h1' : (k == ya) = false := by simpa using h1
      have h2' : (k == xa) = false := by simpa using h2
      rw [h1', h2']
  | trans p1 p2 ih1 ih2 =>
    intro hnd k
    have hnd2 := (p1.map Prod.fst).nodup_iff.mp hnd
    exact (ih1 hnd k).trans (ih2 hnd2 k)

theorem ratingOf_perm (r : Factors)
    {a a' b b' c c' d d' e e' f f' g g' h h' : List ℚ}
    (ha : a.Perm a') (hb : b.Perm b') (hc : c.Perm c') (hd : d.Perm d')
    (he : e.Perm e') (hf : f.Perm f') (hg : g.Perm g') (hh : h.Perm h') :
    ratingOf r a b c d e f g h = ratingOf r a' b' c' d' e' f' g' h' := by
  unfold ratingOf
  rw [normalize_perm _ ha, normalize_perm _ hb, normalize_perm _ hc,
    normalize_perm _ hd, normalize_perm _ he, normalize_perm _ hf,
    normalize_perm _ hg, normalize_perm _ hh]

theorem compute_team_ratings_eq (s : List TeamStanding)
    (ts : String → Option TeamStats) :
    compute_team_ratings s ts =
      (rawFactors s ts).map (fun p =>
        (p.1, ratingOf p.2
          ((rawFactors s ts).map (fun q => q.2.goal_diff_per_gp))
          ((rawFactors s ts).map (fun q => q.2.point_pct))
          ((rawFactors s ts).map (fun q => q.2.recent_form))
          ((rawFactors s ts).map (fun q => q.2.special_teams))
          ((rawFactors s ts).map (fun q => q.2.shot_diff_per_gp))
          ((rawFactors s ts).map (fun q => q.2.streak_momentum))
          ((rawFactors s ts).map (fun q => q.2.home_pct))
          ((rawFactors s ts).map (fun q => q.2.road_pct)))) := by
  simp only [compute_team_ratings]
  by_cases hni : (rawFactors s ts).isEmpty = true
  · rw [if_pos hni, List.isEmpty_iff.mp hni]
    rfl
  · rw [if_neg hni]

/-- C8: with pairwise-distinct abbreviations, any permutation of the standings
yields the same rating record for every team. -/
theorem C8_ratings_perm :
    ∀ (standings standings' : List TeamStanding)
      (team_stats : String → Option TeamStats),
      standings.Perm standings' →
      (standings.map TeamStanding.teamAbbrev).Nodup →
      ∀ ab, (compute_team_ratings standings' team_stats).lookup ab
        = (compute_team_ratings standings team_stats).lookup ab := by
  intro s s' ts hp hnd ab
  have hraw : (rawFactors s ts).Perm (rawFactors s' ts) := hp.map _
  have hpop : ∀ (g : String × Factors → ℚ),
      ((rawFactors s' ts).map g).Perm ((rawFactors s ts).map g) :=
    fun g => (hraw.map g).symm
  have hmap : ∀ p : String × Factors,
      (p.1, ratingOf p.2
        ((rawFactors s' ts).map (fun q => q.2.goal_diff_per_gp))
        ((rawFactors s' ts).map (fun q => q.2.point_pct))
        ((rawFactors s' ts).map (fun q => q.2.recent_form))
        ((rawFactors s' ts).map (fun q => q.2.special_teams))
        ((rawFactors s' ts).map (fun q => q.2.shot_diff_per_gp))
        ((rawFactors s' ts).map (fun q => q.2.streak_momentum))
        ((rawFactors s' ts).map (fun q => q.2.home_pct))
        ((rawFactors s' ts).map (fun q => q.2.road_pct)))
      = (p.1, ratingOf p.2
        ((rawFactors s ts).map (fun q => q.2.goal_diff_per_gp))
        ((rawFactors s ts).map (fun q => q.2.point_pct))
        ((rawFactors s ts).map (fun q => q.2.recent_form))
        ((rawFactors s ts).map (fun q => q.2.special_teams))
        ((rawFactors s ts).map (fun q => q.2.shot_diff_per_gp))
        ((rawFactors s ts).map (fun q => q.2.streak_momentum))
        ((rawFactors s ts).map (fun q => q.2.home_pct))
        ((rawFactors s ts).map (fun q => q.2.road_pct))) := by
    intro p
    rw [ratingOf_perm p.2 (hpop _) (hpop _) (hpop _) (hpop _) (hpop _) (hpop _)
      (hpop _) (hpop _)]
  rw [compute_team_ratings_eq s ts, compute_team_ratings_eq s' ts]
  rw [show (fun p : String × Factors => (p.1, ratingOf p.2
        ((rawFactors s' ts).map (fun q => q.2.goal_diff_per_gp))
        ((rawFactors s' ts).map (fun q => q.2.point_pct))
        ((rawFactors s' ts).map (fun q => q.2.recent_form))
        ((rawFactors s' ts).map (fun q => q.2.special_teams))
        ((rawFactors s' ts).map (fun q => q.2.shot_diff_per_gp))
        ((rawFactors s' ts).map (fun q => q.2.streak_momentum))
        ((rawFactors s' ts).map (fun q => q.2.home_pct))
        ((rawFactors s' ts).map (fun q => q.2.road_pct))))
      = (fun p : String × Factors => (p.1, ratingOf p.2
        ((rawFactors s ts).map (fun q => q.2.goal_diff_per_gp))
        ((rawFactors s ts).map (fun q => q.2.point_pct))
        ((rawFactors s ts).map (fun q => q.2.recent_form))
        ((rawFactors s ts).map (fun q => q.2.special_teams))
        ((rawFactors s ts).map (fun q => q.2.shot_diff_per_gp))
        ((rawFactors s ts).map (fun q => q.2.streak_momentum))
        ((rawFactors s ts).map (fun q => q.2.home_pct))
        ((rawFactors s ts).map (fun q => q.2.road_pct))))
    from funext hmap]
  have hkeys : (((rawFactors s ts).map (fun p : String × Factors =>
      (p.1, ratingOf p.2
        ((rawFactors s ts).map (fun q => q.2.goal_diff_per_gp))
        ((rawFactors s ts).map (fun q => q.2.point_pct))
        ((rawFactors s ts).map (fun q => q.2.recent_form))
        ((rawFactors s ts).map (fun q => q.2.special_teams))
        ((rawFactors s ts).map (fun q => q.2.shot_diff_per_gp))
        ((rawFactors s ts).map (fun q => q.2.streak_momentum))
        ((rawFactors s ts).map (fun q => q.2.home_pct))
        ((rawFactors s ts).map (fun q => q.2.road_pct))))).map Prod.fst).Nodup := by
    rw [List.map_map]
    show ((rawFactors s ts).map (fun p => p.1)).Nodup
    rw [show rawFactors s ts
      = s.map (fun t => (t.teamAbbrev, extract_factors t (ts t.teamAbbrev)))
      from rfl]
    rw [List.map_map]
    exact hnd
  exact (lookup_perm_of_nodup (hraw.map _) hkeys ab).symm

/-- Witness for C8: swapping a two-team standings list leaves the looked-up
rating of "AAA" unchanged. -/
theorem C8_ratings_perm_witness :
    (([sA, sC]).Perm [sC, sA]
      ∧ (([sA, sC]).map TeamStanding.teamAbbrev).Nodup)
    ∧ (compute_team_ratings [sC, sA] (fun _ => none)).lookup "AAA"
        = (compute_team_ratings [sA, sC] (fun _ => none)).lookup "AAA" := by
  have hperm : ([sA, sC]).Perm [sC, sA] := List.Perm.swap sC sA []
  have hnd : (([sA, sC]).map TeamStanding.teamAbbrev).Nodup := by decide
  exact ⟨⟨hperm, hnd⟩,
    C8_ratings_perm [sA, sC] [sC, sA] (fun _ => none) hperm hnd "AAA"⟩

/-! ### Claim C5 — the slate is sorted by grade, descending and stable -/

/-- C5: `predict_today` returns the slate predictions ordered by confidence
grade descending, and the predictions of any fixed grade appear in exactly
their original slate order (Python's `list.sort` is stable; `mergeSort`
likewise, which the filter equation certifies). -/
theorem C5_sorted_stable :
    ∀ (standings : List TeamStanding) (team_stats : String → Option TeamStats)
      (games : List Game) (schedules : String → List ℤ) (game_date : ℤ),
      (predict_today standings team_stats games schedules game_date).Pairwise
        (fun p q => q.stars ≤ p.stars)
      ∧ ∀ s : ℕ,
          (predict_today standings team_stats games schedules game_date).filter
            (fun p => p.stars == s)
          = (slate_predictions (compute_team_ratings standings team_stats) games
              schedules game_date).filter (fun p => p.stars == s) := by
  intro standings team_stats games schedules gd
  have hpt : predict_today standings team_stats games schedules gd
      = (slate_predictions (compute_team_ratings standings team_stats) games
          schedules gd).mergeSort (fun p q => q.stars ≤ p.stars) := by
    simp only [predict_today]
    by_cases he : (compute_team_ratings standings team_stats).isEmpty = true
    · rw [if_pos he]
      have hnil : compute_team_ratings standings team_stats = [] :=
        List.isEmpty_iff.mp he
      have hslate : slate_predictions (compute_team_ratings standings team_stats)
          games schedules gd = [] := by
        rw [hnil]
        unfold slate_predictions
        rw [List.filterMap_eq_nil_iff]
        intro g _
        by_cases hg2 : g.home = "" ∨ g.away = ""
        · rw [if_pos hg2]
        · rw [if_neg hg2]
          rfl
      rw [hslate, List.mergeSort_nil]
    · rw [if_neg he]
  rw [hpt]
  have htrans : ∀ (a b c : Prediction),
      decide (b.stars ≤ a.stars) = true → decide (c.stars ≤ b.stars) = true →
      decide (c.stars ≤ a.stars) = true := by
    intro a b c h1 h2
    simp only [decide_eq_true_eq] at h1 h2 ⊢
    omega
  have htotal : ∀ (a b : Prediction),
      (decide (b.stars ≤ a.stars) || decide (a.stars ≤ b.stars)) = true := by
    intro a b
    simp only [Bool.or_eq_true, decide_eq_true_eq]
    omega
  constructor
  · exact (List.sorted_mergeSort htrans htotal _).imp (fun h => by simpa using h)
  · intro s
    have hFpw : ((slate_predictions (compute_team_ratings standings team_stats)
        games schedules gd).filter (fun p => p.stars == s)).Pairwise
        (fun a b => decide (b.stars ≤ a.stars) = true) := by
      apply List.pairwise_of_forall_mem_list
      intro a ha b hb
      have ha2 : a.stars = s := by simpa using (List.mem_filter.mp ha).2
      have hb2 : b.stars = s := by simpa using (List.mem_filter.mp hb).2
      simp only [decide_eq_true_eq]
      omega
    have hsub := List.sublist_mergeSort htrans htotal hFpw (List.filter_sublist _)
    have hFf : ((slate_predictions (compute_team_ratings standings team_stats)
        games schedules gd).filter (fun p => p.stars == s)).filter
          (fun p => p.stars == s)
        = (slate_predictions (compute_team_ratings standings team_stats)
            games schedules gd).filter (fun p => p.stars == s) :=
      List.filter_eq_self.mpr (fun a ha => (List.mem_filter.mp ha).2)
    have hsub2 := hsub.filter (fun p => p.stars == s)
    rw [hFf] at hsub2
    have hpermf := (List.mergeSort_perm (slate_predictions
        (compute_team_ratings standings team_stats) games schedules gd)
        (fun p q => q.stars ≤ p.stars)).filter (fun p => p.stars == s)
    exact (List.Sublist.eq_of_length hsub2 hpermf.length_eq.symm).symm

end SportsAlgo
